import Mathlib

/-
Verification development for the llm_pic_search_poc repository
(image_search_annotator.py, vlm_selector.py, main.py).

The Python code is shallowly embedded: pure computations become Lean
functions, and the effectful annotator / orchestrator runs become
functions from an explicit environment (which waits time out, what the
subprocesses return, which configuration variables are set) to a record
of the observable effects (screenshots taken, browser teardown, exit
status, subprocess invocations, printed output).
-/

/-! ## The in-page annotation pass (image_search_annotator.py, js_code, lines 50-90)

The injected JavaScript enumerates `div.img_cont img.mimg` elements, and
for each one (forEach with 0-based index) creates a label whose text is
`index + 1`, positioned at `window.scrollY + rect.top` /
`window.scrollX + rect.left`.  Coordinates are modelled as integers. -/

/-- The bounding rectangle of a thumbnail as returned by
getBoundingClientRect, in viewport coordinates. -/
structure Rect where
  top : Int
  left : Int
  width : Int
  height : Int
deriving Repr, DecidableEq

/-- A synthesized numeric overlay: its text (the decimal ordinal) and its
document-coordinate position. -/
structure Overlay where
  text : Nat
  top : Int
  left : Int
deriving Repr, DecidableEq

/-- One iteration of the forEach body: build the label for the image with
0-based index `index`; text is `index + 1`, position is the viewport
rectangle shifted by the scroll offset (lines 64, 70, 71). -/
def mkLabel (index : Nat) (scrollX scrollY : Int) (r : Rect) : Overlay :=
  { text := index + 1, top := scrollY + r.top, left := scrollX + r.left }

/-- The forEach loop over the discovered images, carrying the 0-based
index, in discovery (enumeration) order. -/
def annotateImages (scrollX scrollY : Int) : Nat → List Rect → List Overlay
  | _, [] => []
  | i, r :: rs => mkLabel i scrollX scrollY r :: annotateImages scrollX scrollY (i + 1) rs

/-- The whole injected script: the overlays appended to the document, and
the returned value `images.length` (line 88). -/
def js_code (scrollX scrollY : Int) (images : List Rect) : List Overlay × Nat :=
  (annotateImages scrollX scrollY 0 images, images.length)

/-! ## The annotator run (image_search_annotator.py, annotate_image_search)

The run is modelled over an environment saying which of the bounded waits
times out (goto at line 26, search-box visibility at line 32, results
visibility at line 41) and whether any other page operation raises.  The
observable outcome records the screenshots taken (path, full_page flag),
whether the browser was closed, and the process exit status of the
script (the __main__ block just calls the function; the except blocks at
lines 104-112 swallow the exception, so the function always returns
normally and the script exits 0). -/

/-- Which failures the environment injects into one annotator run. -/
structure AnnotEnv where
  navTimesOut : Bool
  searchBoxTimesOut : Bool
  resultsTimeOut : Bool
  pageFault : Bool
deriving Repr, DecidableEq

/-- Observable outcome of one annotator run. -/
structure AnnotRun where
  screenshots : List (String × Bool)
  browserClosed : Bool
  exitStatus : Nat
deriving Repr, DecidableEq

/-- The success-path screenshot call (line 99): full_page=True. -/
def successShot : String × Bool := ("labeled_screenshot.png", true)

/-- The diagnostic screenshot call in both except blocks (lines 107 and
111): no full_page argument, so Playwright defaults to a viewport-only
capture. -/
def errorShot : String × Bool := ("error_screenshot.png", false)

/-- annotate_image_search as run by the __main__ block.  The three
bounded waits raise PlaywrightTimeoutError when they expire and any other
page fault raises a generic exception; both handlers write the
viewport-only diagnostic screenshot and fall through, the finally block
closes the browser, and the function returns None so the script exits 0
on every path. -/
def annotate_image_search (env : AnnotEnv) : AnnotRun :=
  if env.navTimesOut then
    { screenshots := [errorShot], browserClosed := true, exitStatus := 0 }
  else if env.searchBoxTimesOut then
    { screenshots := [errorShot], browserClosed := true, exitStatus := 0 }
  else if env.resultsTimeOut then
    { screenshots := [errorShot], browserClosed := true, exitStatus := 0 }
  else if env.pageFault then
    { screenshots := [errorShot], browserClosed := true, exitStatus := 0 }
  else
    { screenshots := [successShot], browserClosed := true, exitStatus := 0 }

/-- Whether a run of `annotate_image_search` hit any injected failure. -/
def AnnotEnv.fails (env : AnnotEnv) : Bool :=
  env.navTimesOut || env.searchBoxTimesOut || env.resultsTimeOut || env.pageFault

/-! ## The browser launch flag (image_search_annotator.py, lines 10-21, 129-139)

annotate_image_search takes a `headless` parameter (docstring: whether to
run the browser in headless mode), and the __main__ argparse maps the
absence of --visible to headless=True.  Line 20, however, launches
chromium with the literal `headless=False`, ignoring the parameter. -/

/-- The value actually passed to p.chromium.launch for its headless
argument (line 20), as a function of the `headless` parameter the caller
supplied. -/
def chromiumLaunchHeadless (headless : Bool) : Bool := false

/-- The headless value produced by the argparse setup: --visible stores
False into dest=headless, whose default is True. -/
def argHeadless (visibleFlagGiven : Bool) : Bool := !visibleFlagGiven

/-! ## The selection client (vlm_selector.py, call_vlm_api)

call_vlm_api reads the three connection settings from the environment
(os.getenv yields None when unset), guards with
`if not all([api_key, base_url, model_name])` — a Python truthiness
check, so None and the empty string both count as missing — and returns
a descriptive error string without constructing a client.  Otherwise one
remote request is issued; the handler at lines 106-107 converts any
exception to a descriptive string, and the success path (line 104)
returns the response text stripped of surrounding whitespace.  The
script main prints the returned string and exits 0. -/

/-- The whitespace characters Python str.strip() removes (modelled over
its ASCII whitespace range). -/
def pyWhitespace (c : Char) : Bool :=
  c == ' ' || c == '\t' || c == '\n' || c == '\r' || c == '\x0b' || c == '\x0c'

/-- Python str.strip(): drop leading and trailing whitespace, leaving the
interior untouched. -/
def pyStrip (s : String) : String :=
  ⟨((s.data.dropWhile pyWhitespace).reverse.dropWhile pyWhitespace).reverse⟩

/-- An os.getenv result: None when unset, otherwise the raw string. -/
def pyTruthy : Option String → Bool
  | none => false
  | some s => !(s == "")

/-- The three connection settings as the process environment supplies
them. -/
structure VlmEnv where
  apiKey : Option String
  apiBase : Option String
  modelName : Option String
deriving Repr, DecidableEq

/-- The configuration-error string returned at line 67. -/
def configErrorMsg : String :=
  "错误：请确保 OPENAI_API_KEY, OPENAI_API_BASE, 和 OPENAI_MODEL_NAME 环境变量都已设置。"

/-- Observable outcome of one call_vlm_api invocation: how many remote
requests were attempted, and the string the function returned. -/
structure VlmCall where
  remoteCalls : Nat
  output : String
deriving Repr, DecidableEq

/-- call_vlm_api.  `apiFault` is the message of an exception raised by
the client construction / request (None when the round trip succeeds),
and `respContent` is the model response text
response.choices[0].message.content. -/
def call_vlm_api (env : VlmEnv) (apiFault : Option String) (respContent : String) : VlmCall :=
  if !(pyTruthy env.apiKey && pyTruthy env.apiBase && pyTruthy env.modelName) then
    { remoteCalls := 0, output := configErrorMsg }
  else
    match apiFault with
    | some e => { remoteCalls := 1, output := "调用API时发生未知错误: " ++ e }
    | none => { remoteCalls := 1, output := pyStrip respContent }

/-! ## The orchestrator (main.py)

run_image_search launches the annotator subprocess with check=True and
returns True exactly when it exits 0.  run_vlm_selector launches the
selector subprocess; on exit 0 it returns result.stdout.strip(), on a
nonzero exit (CalledProcessError) it returns None.  main exits 1 when
run_image_search returns False, otherwise calls run_vlm_selector and
tests its result for Python truthiness (None and the empty string are
falsy): truthy means print the label and exit 0, falsy means exit 1. -/

/-- run_image_search (main.py lines 9-39): True iff the annotator
subprocess exited 0. -/
def run_image_search (annotatorExit : Nat) : Bool := annotatorExit == 0

/-- run_vlm_selector (main.py lines 42-75): the stripped stdout of the
selector subprocess when it exits 0, None otherwise. -/
def run_vlm_selector (selectorExit : Nat) (selectorStdout : String) : Option String :=
  if selectorExit == 0 then some (pyStrip selectorStdout) else none

/-- Observable outcome of one orchestrator run: how many times the
selector stage was invoked, the label printed on the success path, and
the process exit code. -/
structure MainRun where
  selectorCalls : Nat
  printedLabel : Option String
  exitCode : Nat
deriving Repr, DecidableEq

/-- main (main.py lines 77-103), over the exit status of the annotator
subprocess and the exit status and stdout of the selector subprocess. -/
def mainOrchestrator (annotatorExit selectorExit : Nat) (selectorStdout : String) : MainRun :=
  if !(run_image_search annotatorExit) then
    { selectorCalls := 0, printedLabel := none, exitCode := 1 }
  else
    match run_vlm_selector selectorExit selectorStdout with
    | none => { selectorCalls := 1, printedLabel := none, exitCode := 1 }
    | some l =>
      if l == "" then { selectorCalls := 1, printedLabel := none, exitCode := 1 }
      else { selectorCalls := 1, printedLabel := some l, exitCode := 0 }

/-- The composed pipeline for runs in which vlm_selector.py returns
normally: its stdout is the call_vlm_api result followed by the newline
appended by print, and its exit status is 0 (its main never exits
nonzero after call_vlm_api returns). -/
def fullPipeline (annotatorExit : Nat) (venv : VlmEnv) (apiFault : Option String)
    (respContent : String) : MainRun :=
  mainOrchestrator annotatorExit 0 ((call_vlm_api venv apiFault respContent).output ++ "\n")

/-- A fully populated configuration, for concrete pipeline runs. -/
def cfgAll : VlmEnv := { apiKey := some "k", apiBase := some "u", modelName := some "m" }

/-! ## Helper lemmas -/

/-- The forEach pass starting at 0-based index `i` produces label texts
`i+1, i+2, ...` in order. -/
theorem annotateImages_map_text (sx sy : Int) (i : Nat) (rs : List Rect) :
    (annotateImages sx sy i rs).map Overlay.text = List.range' (i + 1) rs.length := by
  induction rs generalizing i with
  | nil => rfl
  | cons r rs ih =>
    simp only [annotateImages, List.map_cons, List.length_cons, List.range'_succ, mkLabel]
    exact congrArg _ (ih (i + 1))

/-- Each overlay produced by the forEach pass sits at its thumbnail's
viewport rectangle shifted by the scroll offset, pairwise in order. -/
theorem annotateImages_positions (sx sy : Int) (i : Nat) (rs : List Rect) :
    List.Forall₂ (fun (r : Rect) (o : Overlay) => o.top = sy + r.top ∧ o.left = sx + r.left)
      rs (annotateImages sx sy i rs) := by
  induction rs generalizing i with
  | nil => exact List.Forall₂.nil
  | cons r rs ih => exact List.Forall₂.cons ⟨rfl, rfl⟩ (ih (i + 1))

/-! ## Claim theorems -/

/-- C3: for every set of N thumbnails discovered at annotation time, the
labels assigned are exactly the integers 1..N (List.range' 1 N), each
used exactly once, in discovery order, and the returned annotated count
is N. -/
theorem labels_are_exactly_one_to_N (sx sy : Int) (images : List Rect) :
    (js_code sx sy images).1.map Overlay.text = List.range' 1 images.length ∧
    (js_code sx sy images).2 = images.length :=
  ⟨annotateImages_map_text sx sy 0 images, rfl⟩

/-- C6: for every discovered thumbnail and any scroll position, the
overlay document coordinates equal the viewport rectangle coordinates
plus the scroll offset read in the same pass: top = scrollY + rect.top
and left = scrollX + rect.left, thumbnail by thumbnail in order. -/
theorem overlay_coords_equal_rect_plus_scroll (sx sy : Int) (images : List Rect) :
    List.Forall₂ (fun (r : Rect) (o : Overlay) => o.top = sy + r.top ∧ o.left = sx + r.left)
      images (js_code sx sy images).1 :=
  annotateImages_positions sx sy 0 images

/-- C8: on every exit path of annotate_image_search (success, any of the
three timeouts, or an unexpected page fault) the browser session is
closed before the function returns. -/
theorem browser_closed_on_every_exit_path (env : AnnotEnv) :
    (annotate_image_search env).browserClosed = true := by
  obtain ⟨a, b, c, d⟩ := env
  cases a <;> cases b <;> cases c <;> cases d <;> rfl

/-- C1 (divergence witness): on a results-visibility timeout the code
writes the viewport diagnostic screenshot to error_screenshot.png, never
the success path, but the exception is swallowed and the script exits
with status 0 — it does not propagate a failed status to its caller. -/
theorem results_timeout_writes_error_shot_but_exits_zero :
    (annotate_image_search ⟨false, false, true, false⟩).screenshots = [errorShot] ∧
    (annotate_image_search ⟨false, false, true, false⟩).exitStatus = 0 :=
  ⟨rfl, rfl⟩

/-- C10: every screenshot the annotator takes at the error path is a
viewport-only capture and every screenshot at the success path is a
full-page capture. -/
theorem error_shot_viewport_success_shot_fullpage (env : AnnotEnv) (path : String) (fp : Bool)
    (h : (path, fp) ∈ (annotate_image_search env).screenshots) :
    (path = "error_screenshot.png" → fp = false) ∧
    (path = "labeled_screenshot.png" → fp = true) := by
  obtain ⟨a, b, c, d⟩ := env
  cases a <;> cases b <;> cases c <;> cases d <;>
    simp only [annotate_image_search, errorShot, successShot, Bool.false_eq_true,
      if_true, if_false, List.mem_singleton, Prod.mk.injEq] at h <;>
    obtain ⟨h1, h2⟩ := h <;> subst h1 <;> subst h2 <;>
    (refine ⟨fun hc => ?_, fun hc => ?_⟩ <;> first | rfl | exact absurd hc (by decide))

/-- C10 witness: instantiated on a navigation-timeout run, whose only
screenshot is the viewport-only error capture. -/
theorem error_shot_viewport_witness :
    ("error_screenshot.png" = "error_screenshot.png" → false = false) ∧
    ("error_screenshot.png" = "labeled_screenshot.png" → false = true) :=
  error_shot_viewport_success_shot_fullpage ⟨true, false, false, false⟩
    "error_screenshot.png" false (by decide)

/-- C5 (divergence witness): the default CLI invocation (no --visible
flag) requests headless mode, yet the chromium launch receives the
hard-coded headless=False and opens a visible browser. -/
theorem headless_request_launches_visible :
    argHeadless false = true ∧ chromiumLaunchHeadless (argHeadless false) = false :=
  ⟨rfl, rfl⟩

/-- C2: whenever the annotator subprocess exits nonzero, the orchestrator
never invokes the selector stage (call count 0) and the pipeline exits
with the failure code 1. -/
theorem annotator_failure_skips_selector (annotatorExit selectorExit : Nat)
    (out : String) (h : annotatorExit ≠ 0) :
    (mainOrchestrator annotatorExit selectorExit out).selectorCalls = 0 ∧
    (mainOrchestrator annotatorExit selectorExit out).exitCode = 1 := by
  have hb : run_image_search annotatorExit = false := by
    simpa [run_image_search] using h
  simp [mainOrchestrator, hb]

/-- C2 witness: concrete failed annotation (exit 1) with a selector that
would have produced a valid label. -/
theorem annotator_failure_skips_selector_witness :
    (mainOrchestrator 1 0 "3").selectorCalls = 0 ∧ (mainOrchestrator 1 0 "3").exitCode = 1 :=
  annotator_failure_skips_selector 1 0 "3" (by decide)

/-- C9: the orchestrator exits 0 precisely when both subprocesses exited
0 and the stripped selector stdout is non-empty, and in exactly that
case it prints the stripped stdout — whatever string it is — as the
selected label. -/
theorem pipeline_success_iff_nonempty_stripped_stdout (a s : Nat) (out : String) :
    ((mainOrchestrator a s out).exitCode = 0 ↔ a = 0 ∧ s = 0 ∧ pyStrip out ≠ "") ∧
    (mainOrchestrator a s out).printedLabel =
      (if a = 0 ∧ s = 0 ∧ pyStrip out ≠ "" then some (pyStrip out) else none) := by
  by_cases ha : a = 0
  · by_cases hs : s = 0
    · by_cases ho : pyStrip out = ""
      · subst ha; subst hs
        simp [mainOrchestrator, run_image_search, run_vlm_selector, ho]
      · subst ha; subst hs
        simp [mainOrchestrator, run_image_search, run_vlm_selector, ho]
    · subst ha
      simp [mainOrchestrator, run_image_search, run_vlm_selector, hs]
  · simp [mainOrchestrator, run_image_search, ha]

/-- C9 witness: with both exits 0 and stdout whose stripped form is the
descriptive error prefix, the pipeline succeeds. -/
theorem pipeline_success_iff_witness :
    (mainOrchestrator 0 0 "错误：x\n").exitCode = 0 :=
  (pipeline_success_iff_nonempty_stripped_stdout 0 0 "错误：x\n").1.mpr
    ⟨rfl, rfl, by decide⟩

/-- C7: with complete configuration and a fault-free round trip the
selection client returns the model response stripped of surrounding
whitespace and otherwise unmodified, with no numeric validation; in
particular the response " 3 " makes the pipeline print the label "3",
and the non-bare response "I think it\x27s number 3." is passed through
unchanged. -/
theorem selector_returns_stripped_response_unvalidated :
    (∀ (venv : VlmEnv) (resp : String),
        (pyTruthy venv.apiKey && pyTruthy venv.apiBase && pyTruthy venv.modelName) = true →
        (call_vlm_api venv none resp).output = pyStrip resp) ∧
    (fullPipeline 0 cfgAll none " 3 ").printedLabel = some "3" ∧
    (fullPipeline 0 cfgAll none " 3 ").exitCode = 0 ∧
    (call_vlm_api cfgAll none "I think it\x27s number 3.").output
      = "I think it\x27s number 3." := by
  refine ⟨fun venv resp h => ?_, by decide, by decide, by decide⟩
  simp [call_vlm_api, h]

/-- C7 witness: instantiated at the full configuration and the response
" 7 ". -/
theorem selector_returns_stripped_witness :
    (call_vlm_api cfgAll none " 7 ").output = pyStrip " 7 " :=
  selector_returns_stripped_response_unvalidated.1 cfgAll " 7 " (by decide)

/-- C4 counterexample: with all three connection settings missing, the
client does return the configuration-error string with no remote call
attempted, but vlm_selector.py then prints it and exits 0, and the
orchestrator reports pipeline success (exit 0), printing the error
string as the selected label — not the pipeline failure the claim
states. -/
theorem missing_config_pipeline_reports_success :
    (call_vlm_api ⟨none, none, none⟩ none "3").remoteCalls = 0 ∧
    (call_vlm_api ⟨none, none, none⟩ none "3").output = configErrorMsg ∧
    (fullPipeline 0 ⟨none, none, none⟩ none "3").exitCode = 0 ∧
    (fullPipeline 0 ⟨none, none, none⟩ none "3").printedLabel = some configErrorMsg := by
  refine ⟨rfl, rfl, by decide, by decide⟩

/-- C4 amended: whenever any of the three connection settings is missing
(unset or empty), call_vlm_api returns the descriptive
configuration-error string without attempting a remote call, and the
orchestrator reports pipeline success with that string printed as the
selected label. -/
theorem missing_config_error_string_no_call (venv : VlmEnv) (fault : Option String)
    (resp : String)
    (h : (pyTruthy venv.apiKey && pyTruthy venv.apiBase && pyTruthy venv.modelName) = false) :
    (call_vlm_api venv fault resp).remoteCalls = 0 ∧
    (call_vlm_api venv fault resp).output = configErrorMsg ∧
    (fullPipeline 0 venv fault resp).exitCode = 0 ∧
    (fullPipeline 0 venv fault resp).printedLabel = some configErrorMsg := by
  have hcall : call_vlm_api venv fault resp = { remoteCalls := 0, output := configErrorMsg } := by
    simp [call_vlm_api, h]
  refine ⟨by rw [hcall], by rw [hcall], ?_, ?_⟩ <;>
    · unfold fullPipeline
      rw [hcall]
      decide

/-- C4 amended witness: only the endpoint setting missing. -/
theorem missing_config_error_string_witness :
    (call_vlm_api ⟨some "k", none, some "m"⟩ none "5").remoteCalls = 0 :=
  (missing_config_error_string_no_call ⟨some "k", none, some "m"⟩ none "5" (by decide)).1
